import Mathlib

/-!
Shallow embedding of the correlation / structured-logging core of the
FastAPIBoilerplate repository.

Conventions used throughout this development:

- Python exceptions are modelled with `Except PyErr`; a Python function
  that cannot raise is given a plain (non-`Except`) return type.
- Python truthiness of `Optional[str]` values (`if not request_id: ...`)
  is modelled by `truthyStr`: `None` and the empty string are falsy.
- Database reads and writes, as well as other external effects, are
  modelled either as explicit stores passed through the functions
  (association lists of rows) or as behaviour oracles (`Except` values
  supplied as parameters), so that a theorem can quantify over every
  possible success/failure pattern of the persistence layer.
- `contextvars.ContextVar` cells are modelled by explicit state fields;
  a `Token` returned by `ContextVar.set` stores the previous value, and
  `reset` restores it, matching the Python semantics for the
  strictly-nested usage found in this repository.
-/

/-- A Python exception, identified by its message. -/
inductive PyErr where
  | err (msg : String)
  deriving DecidableEq, Repr

/-- Outcome of a Python call that may raise. -/
abbrev PyResult (α : Type) := Except PyErr α

/-- Python truthiness of an `Optional[str]`: `None` and `""` are falsy. -/
def truthyStr : Option String → Bool
  | none => false
  | some s => !s.isEmpty

/-- Python truthiness of an `Optional[int]`: `None` and `0` are falsy. -/
def truthyNat : Option Nat → Bool
  | none => false
  | some n => n != 0

/-!
## Python values flowing through the decorator

`app/core/decorators.py` only ever distinguishes arguments that look like
a FastAPI/Starlette `Request` (carrying `state.request_id`) from everything
else, so the embedding needs just those two shapes.
-/

/-- A Python runtime value as seen by the `log_action` decorator:
either a Starlette `Request`-like object whose `state.request_id`
attribute is modelled directly, or any other (opaque) value. -/
inductive PyVal where
  | reqObj (state_request_id : Option String)
  | plain (s : String)
  deriving DecidableEq, Repr

/-- `_is_fastapi_request` (decorators.py): recognizes `Request`-like objects. -/
def is_fastapi_request : PyVal → Bool
  | PyVal.reqObj _ => true
  | PyVal.plain _ => false

/-- `getattr(getattr(req, "state", None), "request_id", None)` on a value. -/
def requestStateId : PyVal → Option String
  | PyVal.reqObj rid => rid
  | PyVal.plain _ => none

/-- Positional-argument scan of `_find_request_id` (decorators.py):
for the first `Request`-like argument whose `state.request_id` is truthy,
return that id; falsy ids let the loop continue. -/
def scanArgsForRequestId : List PyVal → Option String
  | [] => none
  | a :: rest =>
    if is_fastapi_request a then
      match requestStateId a with
      | some rid => if rid.isEmpty then scanArgsForRequestId rest else some rid
      | none => scanArgsForRequestId rest
    else scanArgsForRequestId rest

/-- `_find_request_id` (decorators.py, lines 122-160): resolve the request id
from a `request=` keyword argument, then from positional arguments, then
from the `current_request_id` context variable. -/
def find_request_id (args : List PyVal) (kwargsRequest : Option PyVal)
    (ctxRequestId : Option String) : Option String :=
  let fromKw : Option String :=
    match kwargsRequest with
    | some req =>
      if is_fastapi_request req then
        match requestStateId req with
        | some rid => if rid.isEmpty then none else some rid
        | none => none
      else none
    | none => none
  match fromKw with
  | some rid => some rid
  | none =>
    match scanArgsForRequestId args with
    | some rid => some rid
    | none => ctxRequestId

/-!
## The `log_action` decorator (app/core/decorators.py)

The wrapped function's own outcome is an input (`funcOutcome`), and every
call into `LoggingService` is a behaviour oracle that may raise; the
wrapper both computes the value/exception returned to the caller and
records which sink calls were attempted.
-/

/-- Behaviour of the logging machinery during one decorated call: what
each `LoggingService` call and the parameter-binding step would do.
`Except.error` models the Python call raising. -/
structure DecoratorEnv where
  bindParams : PyResult (List (String × PyVal))
  svcCreate : PyResult (Option Nat)
  svcUpdateResult : PyResult Bool
  svcUpdateError : PyResult Bool
  deriving Repr

/-- A persistence call attempted by the decorator. -/
inductive SinkCall where
  | createCall (request_id : String)
  | updateResultCall (action_log_id : Nat)
  | updateErrorCall (action_log_id : Nat) (msg : String)
  deriving DecidableEq, Repr

/-- `create_action_log` (decorators.py, lines 293-331): skip when the
request id is falsy; otherwise call `LoggingService.create_action_log`,
catching any exception and returning `None` in that case. -/
def create_action_log (env : DecoratorEnv) (request_id : Option String) :
    Option Nat × List SinkCall :=
  if !truthyStr request_id then (none, [])
  else
    match request_id with
    | none => (none, [])
    | some rid =>
      match env.svcCreate with
      | Except.ok v => (v, [SinkCall.createCall rid])
      | Except.error _ => (none, [SinkCall.createCall rid])

/-- `update_with_result` (decorators.py, lines 333-359): no-op unless both
`action_log_id` and `log_result` are truthy; the `LoggingService` call is
attempted inside a `try` that swallows every exception. -/
def update_with_result (env : DecoratorEnv) (log_result : Bool)
    (action_log_id : Option Nat) : List SinkCall :=
  if !(truthyNat action_log_id && log_result) then []
  else
    match action_log_id with
    | some i =>
      match env.svcUpdateResult with
      | Except.ok _ => [SinkCall.updateResultCall i]
      | Except.error _ => [SinkCall.updateResultCall i]
    | none => []

/-- `update_with_error` (decorators.py, lines 361-383): no-op unless
`action_log_id` is truthy; the `LoggingService` call is attempted inside a
`try` that swallows every exception. -/
def update_with_error (env : DecoratorEnv) (action_log_id : Option Nat)
    (e : PyErr) : List SinkCall :=
  if !truthyNat action_log_id then []
  else
    match action_log_id, e with
    | some i, PyErr.err m =>
      match env.svcUpdateError with
      | Except.ok _ => [SinkCall.updateErrorCall i m]
      | Except.error _ => [SinkCall.updateErrorCall i m]
    | none, _ => []

/-- `sync_wrapper` (decorators.py, lines 385-416): resolve the request id,
optionally capture parameters (failures swallowed), create the action log,
run the wrapped function, record result or error, and hand the wrapped
function's own outcome through unchanged. Returns the outcome delivered to
the caller together with the attempted sink calls. -/
def sync_wrapper (log_result log_params : Bool) (env : DecoratorEnv)
    (args : List PyVal) (kwargsRequest : Option PyVal)
    (ctxRequestId : Option String) (funcOutcome : PyResult PyVal) :
    PyResult PyVal × List SinkCall :=
  let request_id := find_request_id args kwargsRequest ctxRequestId
  let _input_params : Option (List (String × PyVal)) :=
    if log_params then
      match env.bindParams with
      | Except.ok ps => some ps
      | Except.error _ => none
    else none
  let created := create_action_log env request_id
  match funcOutcome with
  | Except.ok v =>
    (Except.ok v, created.2 ++ update_with_result env log_result created.1)
  | Except.error e =>
    (Except.error e, created.2 ++ update_with_error env created.1 e)

/-- `async_wrapper` (decorators.py, lines 418-446): textually the same
bookkeeping as `sync_wrapper` with the wrapped call awaited; the awaited
outcome is again an input. -/
def async_wrapper (log_result log_params : Bool) (env : DecoratorEnv)
    (args : List PyVal) (kwargsRequest : Option PyVal)
    (ctxRequestId : Option String) (funcOutcome : PyResult PyVal) :
    PyResult PyVal × List SinkCall :=
  let request_id := find_request_id args kwargsRequest ctxRequestId
  let _input_params : Option (List (String × PyVal)) :=
    if log_params then
      match env.bindParams with
      | Except.ok ps => some ps
      | Except.error _ => none
    else none
  let created := create_action_log env request_id
  match funcOutcome with
  | Except.ok v =>
    (Except.ok v, created.2 ++ update_with_result env log_result created.1)
  | Except.error e =>
    (Except.error e, created.2 ++ update_with_error env created.1 e)

/-!
## Payload sanitization (app/services/logging/logging_service.py)

`LoggingService.sanitize_data` distinguishes only dict/list values (sent
through `json.dumps(..., default=str)`) from everything else (sent through
`str`). A value is modelled together with what its encoding step would do:
`pstr` for plain values (whose `str` is the value itself), `pdict` for a
string-valued mapping, and `pbad` for a value whose encoding raises.
-/

/-- A Python value as seen by `LoggingService.sanitize_data`. -/
inductive PyData where
  | pstr (s : String)
  | pdict (fields : List (String × String))
  | pbad (msg : String)
  deriving DecidableEq, Repr

/-- The left brace character, kept out of string literals. -/
def lbrace : String := String.singleton (Char.ofNat 123)

/-- The right brace character, kept out of string literals. -/
def rbrace : String := String.singleton (Char.ofNat 125)

/-- Model of `json.dumps` on a string-to-string mapping. -/
def jsonDumpsDict (fs : List (String × String)) : String :=
  lbrace ++
    String.intercalate ", "
      (fs.map fun kv => "\"" ++ kv.1 ++ "\": \"" ++ kv.2 ++ "\"") ++
  rbrace

/-- The encoding step of `sanitize_data`: `json.dumps(data, default=str)`
for dict/list values, `str(data)` otherwise; `pbad` models a value whose
encoding raises. -/
def encodeData : PyData → PyResult String
  | PyData.pstr s => Except.ok s
  | PyData.pdict fs => Except.ok (jsonDumpsDict fs)
  | PyData.pbad m => Except.error (PyErr.err m)

namespace LoggingService

/-- `LoggingService.sanitize_data` (logging_service.py, lines 41-76):
`None` maps to `None`; otherwise encode the value, truncate the string to
`max_length` characters when it is longer (`str_data[:max_length]` — the
bare slice, nothing appended), and on an encoding exception return the
fixed marker `"[ERROR SANITIZING DATA]"`. The function itself never
raises, which the non-`Except` return type records. -/
def sanitize_data (data : Option PyData) (max_length : Nat) : Option String :=
  match data with
  | none => none
  | some d =>
    match encodeData d with
    | Except.error _ => some "[ERROR SANITIZING DATA]"
    | Except.ok s =>
      if s.length > max_length then some (s.take max_length) else some s

/-- A `RequestLog` row as built by `LoggingService.create_request_log`
(the fields the claims are about). -/
structure RequestLogRow where
  request_id : String
  method : String
  url : String
  query_params : Option String
  headers : Option String
  body : Option String
  deriving DecidableEq, Repr

/-- `LoggingService.create_request_log` (logging_service.py, lines
78-136): build the row with sanitized fields and insert it; any exception
from the persistence layer is caught and surfaced as `None`, never
re-raised (again recorded by the non-`Except` return type). `dbInsert`
models `db.add`/`db.flush`/commit for the built row. -/
def create_request_log (dbInsert : RequestLogRow → PyResult Nat)
    (request_id method url : String) (query_params headers : Option PyData)
    (body : Option String) : Option Nat :=
  let row : RequestLogRow :=
    { request_id := request_id, method := method, url := url,
      query_params := sanitize_data query_params 500000,
      headers := sanitize_data headers 500000,
      body := sanitize_data (body.map PyData.pstr) 500000 }
  match dbInsert row with
  | Except.ok i => some i
  | Except.error _ => none

/-- `LoggingService.update_request_log` (logging_service.py, lines
138-214): any exception from the lookup/update is caught and surfaced as
`False`; a missing row also yields `False`. `dbUpdate` models the whole
transactional body. -/
def update_request_log (dbUpdate : PyResult Bool) : Bool :=
  match dbUpdate with
  | Except.ok b => b
  | Except.error _ => false

end LoggingService

/-!
## The installed middleware (app/middleware/logging_middleware.py)

`main.py` (line 9/45) installs `RequestLoggingMiddleware` from
`app/middleware/logging_middleware.py`. Its `dispatch` is modelled as a
function of the fallible steps it performs; headers are carried as the
association list that `json.dumps(dict(request.headers))` serializes
(the serialization is injective on these lists, so equality of stored
payloads is equality of the lists).
-/

namespace LoggingMiddleware

/-- Behaviour of one request through
`logging_middleware.RequestLoggingMiddleware.dispatch`:
`requestUuid` is the id chosen by `_get_or_generate_request_id`,
`bodyRead` is `await request.body()`, `rowCreate` is the
`db.add`/`db.commit`/`db.refresh` of the initial `RequestLog` row,
`downstream` is `call_next` plus draining the response body (yielding the
status code), `finalCommit` is the success-path update commit, and
`errorCommit` is the commit performed inside the `except` block. -/
structure DispatchEnv where
  requestUuid : String
  headers : List (String × String)
  bodyRead : PyResult String
  rowCreate : PyResult Nat
  downstream : PyResult Nat
  finalCommit : PyResult Unit
  errorCommit : PyResult Unit

/-- Observable outcome of one `dispatch` call: what the caller of the
middleware sees, whether `call_next` ran, whether `current_request_id`
was reset to its prior value, its value after `dispatch` exits, and the
headers payload of the persisted `RequestLog` row (if one was committed). -/
structure DispatchResult where
  outcome : PyResult Nat
  downstreamRan : Bool
  ctxRestored : Bool
  ctxAfter : Option String
  storedHeaders : Option (List (String × String))
  deriving Repr

/-- `RequestLoggingMiddleware.dispatch` (logging_middleware.py, lines
132-305). Control flow from the source: the context variable is set
(line 162) and the body is read (line 165) BEFORE the `try` at line 188,
so a failing body read propagates without running the `finally` at line
296; inside the `try`, a failure creating/committing the row, a
downstream exception, or a failing final commit all land in the `except`
block (line 253), which commits an error row and re-raises; the `finally`
resets the context variable. -/
def dispatch (env : DispatchEnv) (prevCtx : Option String) : DispatchResult :=
  let token := prevCtx
  match env.bodyRead with
  | Except.error e =>
    { outcome := Except.error e, downstreamRan := false, ctxRestored := false,
      ctxAfter := some env.requestUuid, storedHeaders := none }
  | Except.ok _bodyText =>
    let inner : PyResult Nat × Bool × Option (List (String × String)) :=
      match env.rowCreate with
      | Except.error e =>
        match env.errorCommit with
        | Except.error e2 => (Except.error e2, false, none)
        | Except.ok _ => (Except.error e, false, some env.headers)
      | Except.ok _rowId =>
        match env.downstream with
        | Except.error e =>
          match env.errorCommit with
          | Except.error e2 => (Except.error e2, true, some env.headers)
          | Except.ok _ => (Except.error e, true, some env.headers)
        | Except.ok status =>
          match env.finalCommit with
          | Except.error e =>
            match env.errorCommit with
            | Except.error e2 => (Except.error e2, true, some env.headers)
            | Except.ok _ => (Except.error e, true, some env.headers)
          | Except.ok _ => (Except.ok status, true, some env.headers)
    { outcome := inner.1, downstreamRan := inner.2.1, ctxRestored := true,
      ctxAfter := token, storedHeaders := inner.2.2 }

/-!
### `_get_or_generate_request_id` and its `uuid.UUID` validation

`uuid.UUID(hex=s)` removes every occurrence of `urn:` and `uuid:`, strips
braces from both ends, removes every dash, requires exactly 32 remaining
characters, parses them with `int(hex, 16)` (which itself strips ASCII
whitespace and accepts an optional sign, an optional `0x`/`0X` base
marker, and single underscores between digits), and requires the value to
fit in 128 bits. `str(uuid_obj)` renders the value as 32 lowercase hex
digits grouped 8-4-4-4-12.
-/

/-- Hex digit test for `int(s, 16)`. -/
def isHexDigitCh (c : Char) : Bool :=
  (48 ≤ c.toNat && c.toNat ≤ 57) || (97 ≤ c.toNat && c.toNat ≤ 102) ||
    (65 ≤ c.toNat && c.toNat ≤ 70)

/-- Value of a hex digit. -/
def hexVal (c : Char) : Nat :=
  if c.toNat ≤ 57 then c.toNat - 48
  else if c.toNat ≤ 70 then c.toNat - 55
  else c.toNat - 87

/-- ASCII whitespace stripped by `int`. -/
def isAsciiSpace (c : Char) : Bool :=
  c.toNat = 32 || c.toNat = 9 || c.toNat = 10 || c.toNat = 11 ||
    c.toNat = 12 || c.toNat = 13

/-- Digit run with single underscores between digits, continuing an
already-started number (`acc`). -/
def hexDigitsRun : List Char → Nat → Option Nat
  | [], acc => some acc
  | c :: rest, acc =>
    if isHexDigitCh c then hexDigitsRun rest (acc * 16 + hexVal c)
    else if c.toNat = 95 then
      match rest with
      | d :: rest2 =>
        if isHexDigitCh d then hexDigitsRun rest2 ((acc * 16 + hexVal d)) else none
      | [] => none
    else none

/-- A hex-digit run that must start with a digit. -/
def parseHexDigits : List Char → Option Nat
  | [] => none
  | c :: rest => if isHexDigitCh c then hexDigitsRun rest (hexVal c) else none

/-- After an `0x`/`0X` marker a single underscore may precede the digits. -/
def parseAfterBaseMarker (cs : List Char) : Option Nat :=
  match cs with
  | c :: rest => if c.toNat = 95 then parseHexDigits rest else parseHexDigits cs
  | [] => none

/-- `int(s, 16)` on a character list (ASCII whitespace model). -/
def pyIntHex (s : List Char) : Option Int :=
  let t := (((s.dropWhile isAsciiSpace).reverse.dropWhile isAsciiSpace).reverse)
  match t with
  | [] => none
  | c :: rest =>
    let signed : Bool × List Char :=
      if c = '+' then (false, rest)
      else if c = '-' then (true, rest)
      else (false, t)
    let parsed : Option Nat :=
      match signed.2 with
      | a :: b :: rest2 =>
        if a = '0' && (b = 'x' || b = 'X') then parseAfterBaseMarker rest2
        else parseHexDigits signed.2
      | _ => parseHexDigits signed.2
    match parsed with
    | none => none
    | some v => some (if signed.1 then -(v : Int) else (v : Int))

/-- Brace characters stripped from both ends by `hex.strip('\x7b\x7d')`. -/
def isBraceChar (c : Char) : Bool :=
  c.toNat = 123 || c.toNat = 125

/-- `str.strip` over the brace character set. -/
def stripBraces (cs : List Char) : List Char :=
  ((cs.dropWhile isBraceChar).reverse.dropWhile isBraceChar).reverse

/-- Delete every non-overlapping occurrence of `pat` (left to right),
fuelled by the input length; mirrors `str.replace(pat, "")`. -/
def removeSubAux (pat : List Char) : Nat → List Char → List Char
  | 0, cs => cs
  | _fuel + 1, [] => []
  | fuel + 1, c :: rest =>
    if (c :: rest).take pat.length == pat then
      removeSubAux pat fuel ((c :: rest).drop pat.length)
    else
      c :: removeSubAux pat fuel rest

/-- `str.replace(pat, "")`. -/
def removeSub (pat : List Char) (cs : List Char) : List Char :=
  removeSubAux pat cs.length cs

/-- `uuid.UUID(hex=s)` as a 128-bit value, `none` when it raises. -/
def pyUuidParse (s : String) : Option Nat :=
  let cs1 := removeSub "urn:".toList s.toList
  let cs2 := removeSub "uuid:".toList cs1
  let cs3 := (stripBraces cs2).filter (fun c => c.toNat ≠ 45)
  if cs3.length ≠ 32 then none
  else
    match pyIntHex cs3 with
    | none => none
    | some v =>
      if 0 ≤ v ∧ v < (2 : Int) ^ 128 then some v.toNat else none

/-- Lowercase hex digit of a value below 16. -/
def hexDigitChar (n : Nat) : Char :=
  if n < 10 then Char.ofNat (48 + n) else Char.ofNat (87 + n)

/-- Fixed-width big-endian lowercase hex rendering. -/
def natToHex (v : Nat) : Nat → List Char
  | 0 => []
  | len + 1 => natToHex (v / 16) len ++ [hexDigitChar (v % 16)]

/-- `str(uuid_obj)`: 32 lowercase hex digits grouped 8-4-4-4-12. -/
def uuidCanonicalOfNat (v : Nat) : String :=
  let h := natToHex v 32
  String.mk (h.take 8 ++ '-' :: (h.drop 8).take 4 ++ '-' :: (h.drop 12).take 4
    ++ '-' :: (h.drop 16).take 4 ++ '-' :: h.drop 20)

/-- `str(uuid.UUID(s))`: the canonical form of a client-supplied id, or
`none` when `uuid.UUID` raises `ValueError`. -/
def pyUuidCanonical (s : String) : Option String :=
  (pyUuidParse s).map uuidCanonicalOfNat

/-- `RequestLoggingMiddleware._get_or_generate_request_id`
(logging_middleware.py, lines 308-341): a falsy client id, a client id
that `uuid.UUID` rejects, or one whose normalized form already exists in
the store yields the freshly generated uuid; otherwise the NORMALIZED
client id is returned. `existing` is the set of `request_id` values in
the `RequestLog` table and `fresh` the `str(uuid.uuid4())` that would be
minted. -/
def get_or_generate_request_id (existing : List String) (fresh : String)
    (client_request_id : Option String) : String :=
  match client_request_id with
  | none => fresh
  | some c =>
    if c.isEmpty then fresh
    else
      match pyUuidCanonical c with
      | none => fresh
      | some n => if existing.contains n then fresh else n

end LoggingMiddleware

/-!
## The alternative middleware (app/middleware/request_logging.py)

Not installed by `main.py`, but it is where `_scrub_headers` lives and it
is the middleware that routes its persistence through
`LoggingService.create_request_log` / `update_request_log`.
-/

namespace RequestLogging

/-- `SENSITIVE_HEADERS` (request_logging.py, line 16). -/
def SENSITIVE_HEADERS : List String := ["authorization", "cookie", "set-cookie"]

/-- `str.lower()` on one character (ASCII case mapping, which covers the
header names this code compares). -/
def pyCharLower (c : Char) : Char :=
  if 65 ≤ c.toNat ∧ c.toNat ≤ 90 then Char.ofNat (c.toNat + 32) else c

/-- `str.lower()` on a header name. -/
def pyLower (s : String) : String :=
  String.mk (s.toList.map pyCharLower)

/-- One entry of the `_scrub_headers` dict comprehension. -/
def scrubOne (kv : String × String) : String × String :=
  (kv.1, if SENSITIVE_HEADERS.contains (pyLower kv.1) then "<redacted>" else kv.2)

/-- `_scrub_headers` (request_logging.py, lines 18-19). -/
def scrub_headers (h : List (String × String)) : List (String × String) :=
  h.map scrubOne

/-- Two header lists that agree entry-wise on names and on the values of
all non-sensitive headers (they may differ in sensitive header values). -/
def HeaderAgree (a b : String × String) : Prop :=
  a.1 = b.1 ∧ (SENSITIVE_HEADERS.contains (pyLower a.1) = false → a.2 = b.2)

instance (a b : String × String) : Decidable (HeaderAgree a b) := by
  unfold HeaderAgree
  infer_instance

/-- Behaviour of one request through
`request_logging.RequestLoggingMiddleware.dispatch`. -/
structure RLDispatchEnv where
  freshUuid : String
  method : String
  url : String
  headers : List (String × String)
  bodyRead : PyResult (Option String)
  dbInsert : LoggingService.RequestLogRow → PyResult Nat
  downstream : PyResult Nat
  dbUpdate : PyResult Bool

/-- Observable outcome of `request_logging`'s `dispatch`. -/
structure RLDispatchResult where
  outcome : PyResult Nat
  downstreamRan : Bool
  ctxRestored : Bool
  ctxAfter : Option String
  createdKey : Option Nat

/-- `RequestLoggingMiddleware.dispatch` (request_logging.py, lines
22-84): set the context variable, scrub the headers, read the body inside
its own `try` (failures are logged and leave the body `None`), create the
request log through `LoggingService.create_request_log` (which never
raises), run downstream inside `try`/`finally`, update the request log in
the `finally` (never raises, and guarded by another `try` anyway), and
always reset the context variable. -/
def dispatch (env : RLDispatchEnv) (prevCtx : Option String) : RLDispatchResult :=
  let token := prevCtx
  let scrubbed := scrub_headers env.headers
  let body : Option String :=
    match env.bodyRead with
    | Except.ok b => b
    | Except.error _ => none
  let key := LoggingService.create_request_log env.dbInsert env.freshUuid
    env.method env.url none (some (PyData.pdict scrubbed)) body
  let result := env.downstream
  let _updated := LoggingService.update_request_log env.dbUpdate
  { outcome := result, downstreamRan := true, ctxRestored := true,
    ctxAfter := token, createdKey := key }

end RequestLogging

/-!
## Correlation context state (app/core/request_context.py, app/core/job_context.py)

The process carries three `ContextVar` cells relevant to the claims:
`request_context.current_request_id`, `request_context.current_job_id`
(line 66), and `job_context.current_job_id` (line 4) — the latter two are
DISTINCT variables that happen to share the string name
`"current_job_id"`. A `VarToken` is what `ContextVar.set` returns: it
remembers the previous value, and `reset` restores it.
-/

/-- The values of the three correlation `ContextVar` cells. -/
structure CorrelationState where
  rc_request_id : Option String
  rc_job_id : Option String
  jc_job_id : Option String
  deriving DecidableEq, Repr

/-- A `contextvars.Token`: remembers the value the variable had when
`set` was called; `reset` restores it. -/
structure VarToken where
  old_value : Option String
  deriving DecidableEq, Repr

namespace RequestContext

/-- The string name of `request_context.current_job_id` (line 66). -/
def current_job_id_varname : String := "current_job_id"

/-- `current_request_id.set(v)`: returns a token and the new state. -/
def cvSetRequestId (v : Option String) (s : CorrelationState) :
    VarToken × CorrelationState :=
  (⟨s.rc_request_id⟩, { s with rc_request_id := v })

/-- `current_request_id.reset(t)`. -/
def cvResetRequestId (t : VarToken) (s : CorrelationState) : CorrelationState :=
  { s with rc_request_id := t.old_value }

/-- `request_context.current_job_id.set(v)` (the `current_job_id` defined
at request_context.py line 66). -/
def cvSetJobId (v : Option String) (s : CorrelationState) :
    VarToken × CorrelationState :=
  (⟨s.rc_job_id⟩, { s with rc_job_id := v })

/-- `request_context.current_job_id.reset(t)`. -/
def cvResetJobId (t : VarToken) (s : CorrelationState) : CorrelationState :=
  { s with rc_job_id := t.old_value }

/-- `get_request_id` (request_context.py, lines 68-83). -/
def get_request_id (s : CorrelationState) : Option String :=
  s.rc_request_id

/-- `set_request_id` (request_context.py, lines 86-107): the body calls
`current_request_id.set(rid)` and deliberately does NOT keep or return
the token; the Python function returns `None`, modelled as a `none`
first component. -/
def set_request_id (rid : String) (s : CorrelationState) :
    Option VarToken × CorrelationState :=
  let r := cvSetRequestId (some rid) s
  (none, r.2)

end RequestContext

namespace JobContext

/-- The string name of `job_context.current_job_id` (line 4). -/
def current_job_id_varname : String := "current_job_id"

/-- `set_job_id` (job_context.py, lines 7-8): returns the token of
`job_context.current_job_id.set(job_id)`. -/
def set_job_id (job_id : String) (s : CorrelationState) :
    VarToken × CorrelationState :=
  (⟨s.jc_job_id⟩, { s with jc_job_id := some job_id })

/-- `get_job_id` (job_context.py, lines 10-11). -/
def get_job_id (s : CorrelationState) : Option String :=
  s.jc_job_id

/-- `reset_job_id` (job_context.py, lines 14-15). -/
def reset_job_id (t : VarToken) (s : CorrelationState) : CorrelationState :=
  { s with jc_job_id := t.old_value }

end JobContext

/-- The context setup performed by `process_job` (migration.py, lines
139-144): it imports `current_request_id, current_job_id` from
`app.core.request_context` — NOT from `app.core.job_context` — and sets
both, keeping the two tokens. -/
def processJobSetContext (job_id : String) (request_id : Option String)
    (s : CorrelationState) : (VarToken × VarToken) × CorrelationState :=
  let r1 := RequestContext.cvSetRequestId request_id s
  let r2 := RequestContext.cvSetJobId (some job_id) r1.2
  ((r1.1, r2.1), r2.2)

/-- The context teardown in `process_job`'s `finally` (migration.py,
lines 239-242): reset both `request_context` variables via their tokens. -/
def processJobResetContext (tks : VarToken × VarToken)
    (s : CorrelationState) : CorrelationState :=
  RequestContext.cvResetJobId tks.2 (RequestContext.cvResetRequestId tks.1 s)

/-!
## Service-level action and job rows (app/services/logging/logging_service.py)

Persistence here is modelled as an in-memory store of rows (the
`try`/`except` swallowing of persistence failures is exercised separately
in the decorator-level model through behaviour oracles).
-/

/-- An `ActionLog` row (app/models, as populated by
`LoggingService.create_action_log`). -/
structure ActionLogRow where
  id : Nat
  request_fk : Option Nat
  job_log_fk : Option Nat
  action_type : Option String
  action_name : String
  input_params : Option String
  deriving DecidableEq, Repr

/-- A `JobLog` row as populated by `LoggingService.create_job_log` /
`update_job_log`. Timestamps are abstract ticks. -/
structure JobLogRow where
  id : Nat
  job_id : String
  request_log_fk : Option Nat
  status : String
  started_at : Option Nat
  finished_at : Option Nat
  input_payload : Option String
  result_payload : Option String
  error_message : Option String
  error_traceback : Option String
  deriving DecidableEq, Repr

/-- The three logging tables (request rows reduced to primary key and
correlation id) plus the next primary key to hand out. -/
structure LogStore where
  requestLogs : List (Nat × String)
  jobLogs : List JobLogRow
  actionLogs : List ActionLogRow
  nextId : Nat
  deriving DecidableEq, Repr

namespace LoggingService

/-- `LoggingService.create_action_log` (logging_service.py, lines
216-302): look up the owning `RequestLog` by correlation id when
`request_id` is truthy, the owning `JobLog` by job id when `job_id` is
truthy; when NEITHER resolves, warn and return `None` without writing;
otherwise insert an `ActionLog` row carrying the resolved foreign keys. -/
def create_action_log (store : LogStore) (action_name : String)
    (request_id : Option String) (action_type : Option String)
    (input_params : Option PyData) (job_id : Option String) :
    Option Nat × LogStore :=
  let request_log : Option (Nat × String) :=
    if truthyStr request_id then
      store.requestLogs.find? (fun r => some r.2 == request_id)
    else none
  let job_log : Option JobLogRow :=
    if truthyStr job_id then
      store.jobLogs.find? (fun j => some j.job_id == job_id)
    else none
  if request_log.isNone && job_log.isNone then (none, store)
  else
    let row : ActionLogRow :=
      { id := store.nextId,
        request_fk := request_log.map (fun r => r.1),
        job_log_fk := job_log.map (fun j => j.id),
        action_type := action_type,
        action_name := action_name,
        input_params := sanitize_data input_params 500000 }
    (some store.nextId,
      { store with actionLogs := store.actionLogs ++ [row],
                   nextId := store.nextId + 1 })

end LoggingService

/-- The full persistence path of one decorated call's entry
(`decorators.py` wrapper + `LoggingService.create_action_log`): the
wrapper resolves ONLY a request id via `_find_request_id` (decorators.py
contains no job-id logic whatsoever), skips persistence when it is falsy,
and otherwise calls `LoggingService.create_action_log` with `job_id` left
at its `None` default. -/
def decoratedCallCreatesRow (store : LogStore) (ctx : CorrelationState)
    (args : List PyVal) (kwargsRequest : Option PyVal)
    (action_type action_name : String) (input_params : Option PyData) :
    Option Nat × LogStore :=
  let request_id := find_request_id args kwargsRequest ctx.rc_request_id
  if !truthyStr request_id then (none, store)
  else
    LoggingService.create_action_log store action_name request_id
      (some action_type) input_params none

/-!
## Job lifecycle (logging_service.py `create_job_log`/`update_job_log`,
migration.py `process_job`)
-/

/-- Keyword arguments of one `LoggingService.update_job_log` call. -/
structure UpdateJobArgs where
  status : Option String
  result_payload : Option PyData
  error_message : Option String
  error_traceback : Option String
  mark_started : Bool
  mark_finished : Bool
  deriving DecidableEq, Repr

/-- The row mutation performed by `LoggingService.update_job_log`
(logging_service.py, lines 453-497) once the row is found, in source
order: `mark_started` (only when `started_at` is unset) stamps
`started_at` and sets `status or "running"`; `mark_finished` stamps
`finished_at` and, when `status` is truthy, sets it; a truthy `status` is
then set unconditionally; `result_payload` (compared with `is not None`)
is sanitized and stored; truthy error fields are stored. -/
def applyUpdateJob (now : Nat) (a : UpdateJobArgs) (r : JobLogRow) : JobLogRow :=
  let r1 :=
    if a.mark_started && r.started_at.isNone then
      { r with started_at := some now,
               status :=
                 match a.status with
                 | some s => if s.isEmpty then "running" else s
                 | none => "running" }
    else r
  let r2 :=
    if a.mark_finished then
      { r1 with finished_at := some now,
                status :=
                  match a.status with
                  | some s => if s.isEmpty then r1.status else s
                  | none => r1.status }
    else r1
  let r3 :=
    match a.status with
    | some s => if s.isEmpty then r2 else { r2 with status := s }
    | none => r2
  let r4 :=
    match a.result_payload with
    | some p =>
      { r3 with result_payload := LoggingService.sanitize_data (some p) 500000 }
    | none => r3
  let r5 :=
    if truthyStr a.error_message then { r4 with error_message := a.error_message }
    else r4
  if truthyStr a.error_traceback then { r5 with error_traceback := a.error_traceback }
  else r5

/-- Replace the first row with the given `job_id` (the row
`db.query(JobLog).filter(...).first()` would return). -/
def replaceFirstJob (job_id : String) (f : JobLogRow → JobLogRow) :
    List JobLogRow → List JobLogRow
  | [] => []
  | r :: rest =>
    if r.job_id == job_id then f r :: rest
    else r :: replaceFirstJob job_id f rest

namespace LoggingService

/-- `LoggingService.update_job_log` (logging_service.py, lines 453-497):
find the first `JobLog` row with the given `job_id`; return `False` and
leave the store unchanged when it is missing, else apply the mutation. -/
def update_job_log (store : List JobLogRow) (job_id : String) (now : Nat)
    (a : UpdateJobArgs) : Bool × List JobLogRow :=
  match store.find? (fun r => r.job_id == job_id) with
  | none => (false, store)
  | some _ => (true, replaceFirstJob job_id (applyUpdateJob now a) store)

/-- `LoggingService.create_job_log` (logging_service.py, lines 422-451):
append a fresh `JobLog` row in the given status (the caller in
`submit_job` passes `"queued"`); the owning request primary key (resolved
from the `RequestLog` table) is abstracted as `requestPk`. -/
def create_job_log (store : List JobLogRow) (requestPk : Option Nat)
    (nextPk : Nat) (job_id : String) (input_payload : Option PyData)
    (status : String) : Option Nat × List JobLogRow :=
  (some nextPk,
    store ++
      [{ id := nextPk, job_id := job_id, request_log_fk := requestPk,
         status := status, started_at := none, finished_at := none,
         input_payload := sanitize_data input_payload 500000,
         result_payload := none, error_message := none,
         error_traceback := none }])

end LoggingService

/-- The `update_job_log` call `process_job` makes on entry
(migration.py, lines 148-152). -/
def processJobRunningArgs : UpdateJobArgs :=
  { status := some "running", result_payload := none, error_message := none,
    error_traceback := none, mark_started := true, mark_finished := false }

/-- The `update_job_log` call `process_job` makes on success
(migration.py, lines 214-219). -/
def processJobSucceededArgs (result : PyData) : UpdateJobArgs :=
  { status := some "succeeded", result_payload := some result,
    error_message := none, error_traceback := none, mark_started := false,
    mark_finished := true }

/-- The `update_job_log` call `process_job` makes when the pipeline
raises (migration.py, lines 225-231). -/
def processJobFailedArgs (msg tb : String) : UpdateJobArgs :=
  { status := some "failed", result_payload := none,
    error_message := some msg, error_traceback := some tb,
    mark_started := false, mark_finished := true }

/-- `status == "succeeded" || "failed" || "cancelled"`: the terminal
statuses of the spec's job lifecycle. -/
def terminalStatus (s : String) : Bool :=
  s == "succeeded" || s == "failed" || s == "cancelled"

/-- Terminality of an observed (optional) status. -/
def optTerminal : Option String → Bool
  | some s => terminalStatus s
  | none => false

/-- No adjacent observation moves from a terminal status to a
non-terminal one. -/
def noTerminalEscape : List (Option String) → Bool
  | a :: b :: rest => (!optTerminal a || optTerminal b) && noTerminalEscape (b :: rest)
  | _ => true

/-- The status the first `JobLog` row with this `job_id` shows. -/
def jobStatusIn (store : List JobLogRow) (job_id : String) : Option String :=
  (store.find? (fun r => r.job_id == job_id)).map (fun r => r.status)

/-- The stores after each persistence call of the job lifecycle as the
program performs it: `submit_job` creates the row in status `"queued"`
(migration.py, lines 269-274), then `process_job` marks it running and
finally succeeded or failed. -/
def jobLifecycleStores (store0 : List JobLogRow) (requestPk : Option Nat)
    (nextPk : Nat) (job_id : String) (payload : Option PyData)
    (success : Bool) (result : PyData) (msg tb : String) (t1 t2 : Nat) :
    List (List JobLogRow) :=
  let s1 := (LoggingService.create_job_log store0 requestPk nextPk job_id
    payload "queued").2
  let s2 := (LoggingService.update_job_log s1 job_id t1 processJobRunningArgs).2
  let s3 := (LoggingService.update_job_log s2 job_id t2
    (if success then processJobSucceededArgs result
     else processJobFailedArgs msg tb)).2
  [s1, s2, s3]

/-- The status trace of one job across the lifecycle stores. -/
def jobStatusTrace (store0 : List JobLogRow) (requestPk : Option Nat)
    (nextPk : Nat) (job_id : String) (payload : Option PyData)
    (success : Bool) (result : PyData) (msg tb : String) (t1 t2 : Nat) :
    List (Option String) :=
  (jobLifecycleStores store0 requestPk nextPk job_id payload success result
    msg tb t1 t2).map (fun s => jobStatusIn s job_id)

/-- C1: for every wrapped function outcome, every `log_result`/`log_params`
combination, every argument list, every ambient request id, and every
behaviour of the persistence layer (including one where every
`LoggingService` call raises), both wrappers of the `log_action` decorator
return exactly the wrapped function's own outcome: the same value on
success and the same exception on failure. -/
theorem log_action_preserves_outcome (log_result log_params : Bool)
    (env : DecoratorEnv) (args : List PyVal) (kwargsRequest : Option PyVal)
    (ctxRequestId : Option String) (funcOutcome : PyResult PyVal) :
    (sync_wrapper log_result log_params env args kwargsRequest
        ctxRequestId funcOutcome).1 = funcOutcome ∧
    (async_wrapper log_result log_params env args kwargsRequest
        ctxRequestId funcOutcome).1 = funcOutcome := by
  constructor <;> cases funcOutcome <;> rfl

/-!
## Helper lemmas (shared)
-/

/-- `applyUpdateJob` never changes the row's correlation `job_id`. -/
theorem applyUpdateJob_job_id_eq (now : Nat) (a : UpdateJobArgs) (r : JobLogRow) :
    (applyUpdateJob now a r).job_id = r.job_id := by
  unfold applyUpdateJob
  repeat' split
  all_goals rfl

/-- Finding by `job_id` in a store with no matching row followed by one
appended matching row yields the appended row. -/
theorem find_job_append (jid : String) (l : List JobLogRow) (row : JobLogRow)
    (hl : ∀ r ∈ l, (r.job_id == jid) = false) (hrow : (row.job_id == jid) = true) :
    List.find? (fun r => r.job_id == jid) (l ++ [row]) = some row := by
  induction l with
  | nil => simp [List.find?, hrow]
  | cons a rest ih =>
    have ha := hl a (List.mem_cons_self a rest)
    simp only [List.cons_append, List.find?, ha]
    exact ih (fun r hr => hl r (List.mem_cons_of_mem a hr))

/-- Replacing the first `job_id` match in a store whose only match is the
appended last row rewrites exactly that row. -/
theorem replaceFirstJob_append (jid : String) (f : JobLogRow → JobLogRow)
    (l : List JobLogRow) (row : JobLogRow)
    (hl : ∀ r ∈ l, (r.job_id == jid) = false) (hrow : (row.job_id == jid) = true) :
    replaceFirstJob jid f (l ++ [row]) = l ++ [f row] := by
  induction l with
  | nil => simp [replaceFirstJob, hrow]
  | cons a rest ih =>
    have ha := hl a (List.mem_cons_self a rest)
    have ih2 := ih (fun r hr => hl r (List.mem_cons_of_mem a hr))
    simp [replaceFirstJob, ha, ih2]

/-!
## Claim theorems
-/

/-- C2 counterexample: in the installed middleware
(`logging_middleware.RequestLoggingMiddleware`, registered by `main.py`),
an exception while creating/committing the initial `RequestLog` row is
NOT kept local: the downstream handler never runs and the exception
propagates to the client. -/
theorem installed_dispatch_rowfailure_blocks_downstream :
    let env : LoggingMiddleware.DispatchEnv :=
      { requestUuid := "u1", headers := [], bodyRead := Except.ok "",
        rowCreate := Except.error (PyErr.err "db down"),
        downstream := Except.ok 200, finalCommit := Except.ok (),
        errorCommit := Except.ok () }
    (LoggingMiddleware.dispatch env none).downstreamRan = false ∧
    (LoggingMiddleware.dispatch env none).outcome
      = Except.error (PyErr.err "db down") :=
  ⟨rfl, rfl⟩

/-- C2 (amended): on the `LoggingService`-backed middleware path
(`request_logging.RequestLoggingMiddleware`, whose persistence goes
through `LoggingService.create_request_log` / `update_request_log`),
every logging-machinery failure — body read, row insert, row update — is
caught locally: for every behaviour of the persistence layer the
downstream handler runs, the response outcome is exactly the downstream
outcome, and the context variable is restored. -/
theorem rl_dispatch_logging_failures_stay_local
    (env : RequestLogging.RLDispatchEnv) (prevCtx : Option String) :
    (RequestLogging.dispatch env prevCtx).downstreamRan = true ∧
    (RequestLogging.dispatch env prevCtx).outcome = env.downstream ∧
    (RequestLogging.dispatch env prevCtx).ctxRestored = true :=
  ⟨rfl, rfl, rfl⟩

/-- C3 counterexample: in the installed middleware, the request body is
read AFTER `current_request_id.set` but BEFORE the `try`/`finally`, so a
failing body read exits `dispatch` with the context variable still
holding the new request id — correlation state leaks. -/
theorem installed_dispatch_bodyread_leaks_context :
    let env : LoggingMiddleware.DispatchEnv :=
      { requestUuid := "u2", headers := [],
        bodyRead := Except.error (PyErr.err "client disconnect"),
        rowCreate := Except.ok 1, downstream := Except.ok 200,
        finalCommit := Except.ok (), errorCommit := Except.ok () }
    (LoggingMiddleware.dispatch env none).ctxRestored = false ∧
    (LoggingMiddleware.dispatch env none).ctxAfter = some "u2" :=
  ⟨rfl, rfl⟩

/-- C3 (amended): in the installed middleware, whenever the body read
succeeds (so execution reaches the `try` at line 188), the `finally`
restores `current_request_id` to its prior value on every exit path —
normal completion, downstream exception, and every logging-internal
failure inside the `try`. -/
theorem installed_dispatch_restores_context
    (env : LoggingMiddleware.DispatchEnv) (prevCtx : Option String)
    (b : String) (h : env.bodyRead = Except.ok b) :
    (LoggingMiddleware.dispatch env prevCtx).ctxRestored = true ∧
    (LoggingMiddleware.dispatch env prevCtx).ctxAfter = prevCtx := by
  simp [LoggingMiddleware.dispatch, h]

/-- C3 witness: the amended theorem applied at a concrete environment
whose body read succeeds. -/
theorem installed_dispatch_restores_context_witness :
    (LoggingMiddleware.dispatch
      { requestUuid := "u3", headers := [], bodyRead := Except.ok "hello",
        rowCreate := Except.error (PyErr.err "db down"),
        downstream := Except.ok 200, finalCommit := Except.ok (),
        errorCommit := Except.error (PyErr.err "db still down") }
      (some "prev")).ctxRestored = true ∧
    (LoggingMiddleware.dispatch
      { requestUuid := "u3", headers := [], bodyRead := Except.ok "hello",
        rowCreate := Except.error (PyErr.err "db down"),
        downstream := Except.ok 200, finalCommit := Except.ok (),
        errorCommit := Except.error (PyErr.err "db still down") }
      (some "prev")).ctxAfter = some "prev" :=
  installed_dispatch_restores_context _ _ "hello" rfl

/-- C9 counterexample: the public request-id setter
`request_context.set_request_id` discards the `ContextVar` token and
returns `None`, so no restoration token is available at its public
interface. -/
theorem set_request_id_returns_no_token :
    (RequestContext.set_request_id "r1"
      { rc_request_id := some "r0", rc_job_id := none, jc_job_id := none }).1
      = none :=
  rfl

/-- C9 (amended): the job-id setter `job_context.set_job_id` does return
a restoration token, and `reset_job_id` with that token makes a
subsequent `get_job_id` return exactly the prior value, including under
nesting; the request-id public setter `set_request_id` returns `None`
(no token), and restoration of the request id is only possible through
the raw `current_request_id.set`/`reset` pair, as the middleware does. -/
theorem job_token_restores_prior_value (j1 j2 rid : String)
    (s : CorrelationState) :
    JobContext.get_job_id
        (JobContext.reset_job_id (JobContext.set_job_id j1 s).1
          (JobContext.set_job_id j1 s).2)
      = JobContext.get_job_id s ∧
    JobContext.get_job_id
        (JobContext.reset_job_id
          (JobContext.set_job_id j2 (JobContext.set_job_id j1 s).2).1
          (JobContext.set_job_id j2 (JobContext.set_job_id j1 s).2).2)
      = some j1 ∧
    (RequestContext.set_request_id rid s).1 = none ∧
    RequestContext.get_request_id
        (RequestContext.cvResetRequestId
          (RequestContext.cvSetRequestId (some rid) s).1
          (RequestContext.cvSetRequestId (some rid) s).2)
      = RequestContext.get_request_id s :=
  ⟨rfl, rfl, rfl, rfl⟩

/-- C10: the repository has two distinct job-id context variables that
share the string name `"current_job_id"`; `process_job` writes the one
from `app.core.request_context`, leaving `job_context.current_job_id`
untouched, so `job_context.get_job_id()` still returns its prior value
(`None` for a job whose context never had it set), and writing either
variable leaves the other unchanged. -/
theorem process_job_writes_request_context_job_var (jid : String)
    (rid : Option String) (s : CorrelationState) :
    (processJobSetContext jid rid s).2.jc_job_id = s.jc_job_id ∧
    JobContext.get_job_id (processJobSetContext jid rid s).2
      = JobContext.get_job_id s ∧
    (s.jc_job_id = none →
      JobContext.get_job_id (processJobSetContext jid rid s).2 = none) ∧
    (processJobSetContext jid rid s).2.rc_job_id = some jid ∧
    (∀ v s2, (RequestContext.cvSetJobId v s2).2.jc_job_id = s2.jc_job_id) ∧
    (∀ j s2, (JobContext.set_job_id j s2).2.rc_job_id = s2.rc_job_id) ∧
    RequestContext.current_job_id_varname = JobContext.current_job_id_varname :=
  ⟨rfl, rfl, fun h => h, rfl, fun _ _ => rfl, fun _ _ => rfl, rfl⟩

/-- C10 witness: a job execution starting from a state in which
`job_context.current_job_id` was never set observes `get_job_id() = None`
after `process_job`'s context setup. -/
theorem process_job_writes_request_context_job_var_witness :
    JobContext.get_job_id
      (processJobSetContext "J9" (some "R9")
        { rc_request_id := none, rc_job_id := none, jc_job_id := none }).2
      = none :=
  (process_job_writes_request_context_job_var "J9" (some "R9")
    { rc_request_id := none, rc_job_id := none, jc_job_id := none }).2.2.1 rfl

/-- Helper: when `LoggingService.create_action_log` is called with
`job_id = None` (as the decorator always does), every action row in the
resulting store either pre-existed or carries no job foreign key. -/
theorem create_action_log_none_job_fk (store : LogStore) (aname : String)
    (rid : Option String) (atype : Option String) (ip : Option PyData) :
    ∀ row ∈ (LoggingService.create_action_log store aname rid atype ip none).2.actionLogs,
      row ∈ store.actionLogs ∨ row.job_log_fk = none := by
  intro row hrow
  unfold LoggingService.create_action_log at hrow
  simp [truthyStr] at hrow
  repeat' split at hrow
  all_goals
    first
      | exact Or.inl hrow
      | (simp only [List.mem_append, List.mem_singleton] at hrow
         rcases hrow with h | h
         · exact Or.inl h
         · right
           rw [h])

/-- C4 counterexample: a decorated call running inside a spawned job with
no enclosing request (request-id context empty, job id present both in
the ambient job-id context variable and as a `JobLog` row) creates NO
action row at all — the decorator never resolves a job id. -/
theorem decorated_call_in_job_creates_no_row :
    let jrow : JobLogRow :=
      { id := 7, job_id := "JOB-1", request_log_fk := none,
        status := "running", started_at := some 1, finished_at := none,
        input_payload := none, result_payload := none,
        error_message := none, error_traceback := none }
    let store : LogStore :=
      { requestLogs := [], jobLogs := [jrow], actionLogs := [], nextId := 8 }
    let ctx : CorrelationState :=
      { rc_request_id := none, rc_job_id := some "JOB-1", jc_job_id := none }
    decoratedCallCreatesRow store ctx [] none "job_wait" "wait_one_second" none
      = (none, store) :=
  rfl

/-- C4 (amended): on every invocation the decorator resolves ONLY a
request id (explicit `request=` keyword, positional `Request` argument,
else the ambient request-id context variable); it consults neither a
`job_id=` argument nor any job-id context variable. When no request id
resolves, no action row is written at all, and any action row the
decorator does create carries no job foreign key. -/
theorem decorator_resolves_only_request_id (store : LogStore)
    (ctx : CorrelationState) (args : List PyVal) (kw : Option PyVal)
    (atype aname : String) (ip : Option PyData) :
    (find_request_id args kw ctx.rc_request_id = none →
      decoratedCallCreatesRow store ctx args kw atype aname ip = (none, store)) ∧
    (∀ row,
      row ∈ (decoratedCallCreatesRow store ctx args kw atype aname ip).2.actionLogs →
      row ∈ store.actionLogs ∨ row.job_log_fk = none) := by
  constructor
  · intro h
    simp [decoratedCallCreatesRow, h, truthyStr]
  · intro row hrow
    unfold decoratedCallCreatesRow at hrow
    by_cases ht : truthyStr (find_request_id args kw ctx.rc_request_id) = true
    · simp only [ht, Bool.not_true, if_false] at hrow
      exact create_action_log_none_job_fk store aname
        (find_request_id args kw ctx.rc_request_id) (some atype) ip row hrow
    · simp only [Bool.not_eq_true] at ht
      simp only [ht, Bool.not_false, if_true] at hrow
      exact Or.inl hrow

/-- C4 witness: the amended theorem applied at a concrete store and
context with no resolvable request id. -/
theorem decorator_resolves_only_request_id_witness :
    decoratedCallCreatesRow
        { requestLogs := [], jobLogs := [], actionLogs := [], nextId := 1 }
        { rc_request_id := none, rc_job_id := some "JOB-2", jc_job_id := none }
        [] none "job_step" "pipeline_step" none
      = (none,
          { requestLogs := [], jobLogs := [], actionLogs := [], nextId := 1 }) :=
  (decorator_resolves_only_request_id
      { requestLogs := [], jobLogs := [], actionLogs := [], nextId := 1 }
      { rc_request_id := none, rc_job_id := some "JOB-2", jc_job_id := none }
      [] none "job_step" "pipeline_step" none).1 rfl

set_option maxRecDepth 8192 in
/-- C5 counterexample: the uppercase (but `uuid.UUID`-accepted) client id
`"00000000-0000-0000-0000-00000000000A"`, absent from the store, is
adopted as its NORMALIZED lowercase form — which is neither the verbatim
client value nor the freshly minted id. -/
theorem client_id_normalized_not_verbatim :
    LoggingMiddleware.get_or_generate_request_id []
        "11111111-1111-1111-1111-111111111111"
        (some "00000000-0000-0000-0000-00000000000A")
      = "00000000-0000-0000-0000-00000000000a" ∧
    LoggingMiddleware.pyUuidCanonical "00000000-0000-0000-0000-00000000000A"
      = some "00000000-0000-0000-0000-00000000000a" ∧
    ("00000000-0000-0000-0000-00000000000a" : String)
      ≠ "00000000-0000-0000-0000-00000000000A" ∧
    ("00000000-0000-0000-0000-00000000000a" : String)
      ≠ "11111111-1111-1111-1111-111111111111" :=
  ⟨rfl, rfl, by decide, by decide⟩

/-- C5 (amended): a missing or empty client id, one `uuid.UUID` rejects,
or one whose normalized form is already present in the store yields the
freshly minted id; a client id that `uuid.UUID` accepts and whose
normalized form is not yet present is adopted in NORMALIZED form (which
equals the client value exactly when the client already sent the
canonical lowercase shape). -/
theorem get_or_generate_request_id_cases (existing : List String)
    (fresh c n : String) :
    (LoggingMiddleware.get_or_generate_request_id existing fresh none = fresh) ∧
    (c.isEmpty = true →
      LoggingMiddleware.get_or_generate_request_id existing fresh (some c) = fresh) ∧
    (c.isEmpty = false → LoggingMiddleware.pyUuidCanonical c = none →
      LoggingMiddleware.get_or_generate_request_id existing fresh (some c) = fresh) ∧
    (c.isEmpty = false → LoggingMiddleware.pyUuidCanonical c = some n →
      n ∉ existing →
      LoggingMiddleware.get_or_generate_request_id existing fresh (some c) = n) ∧
    (c.isEmpty = false → LoggingMiddleware.pyUuidCanonical c = some n →
      n ∈ existing →
      LoggingMiddleware.get_or_generate_request_id existing fresh (some c) = fresh) := by
  refine ⟨rfl, ?_, ?_, ?_, ?_⟩ <;> intros <;>
    simp [LoggingMiddleware.get_or_generate_request_id, *]

set_option maxRecDepth 8192 in
/-- C5 witness: a canonical, not-yet-present client id is adopted (its
normalized form coincides with the client value). -/
theorem get_or_generate_request_id_cases_witness :
    LoggingMiddleware.get_or_generate_request_id []
        "22222222-2222-2222-2222-222222222222"
        (some "12345678-1234-5678-1234-567812345678")
      = "12345678-1234-5678-1234-567812345678" :=
  (get_or_generate_request_id_cases [] "22222222-2222-2222-2222-222222222222"
      "12345678-1234-5678-1234-567812345678"
      "12345678-1234-5678-1234-567812345678").2.2.2.1 rfl rfl
    (List.not_mem_nil "12345678-1234-5678-1234-567812345678")

/-- C6 counterexample: sanitizing the 5-character string `"aaaaa"` with
`max_length = 3` returns the bare 3-character slice `"aaa"` — a silent
cut with no truncation marker appended. -/
theorem sanitize_data_truncates_without_marker :
    LoggingService.sanitize_data (some (PyData.pstr "aaaaa")) 3 = some "aaa" ∧
    ("aaaaa" : String).take 3 = "aaa" ∧
    ("aaa" : String).length = 3 :=
  ⟨by decide, by decide, by decide⟩

/-- C6 (amended): `sanitize_data` never raises — every input yields a
value: `None` for `None`, the fixed marker `"[ERROR SANITIZING DATA]"`
when the encoding step raises, the encoding itself when it fits, and the
bare `max_length`-character slice (silently cut, no marker appended)
when it exceeds the cap. -/
theorem sanitize_data_never_raises_truncates_silently (d : PyData) (m : Nat) :
    LoggingService.sanitize_data none m = none ∧
    (LoggingService.sanitize_data (some d) m).isSome = true ∧
    (∀ s, encodeData d = Except.ok s → s.length > m →
      LoggingService.sanitize_data (some d) m = some (s.take m)) ∧
    (∀ s, encodeData d = Except.ok s → s.length ≤ m →
      LoggingService.sanitize_data (some d) m = some s) ∧
    (∀ e, encodeData d = Except.error e →
      LoggingService.sanitize_data (some d) m = some "[ERROR SANITIZING DATA]") := by
  refine ⟨rfl, ?_, ?_, ?_, ?_⟩
  · cases hd : encodeData d with
    | error e => simp [LoggingService.sanitize_data, hd]
    | ok s =>
      simp only [LoggingService.sanitize_data, hd]
      split <;> simp
  · intro s hs hlen
    simp [LoggingService.sanitize_data, hs, hlen]
  · intro s hs hlen
    have : ¬ s.length > m := by omega
    simp [LoggingService.sanitize_data, hs, this]
  · intro e he
    simp [LoggingService.sanitize_data, he]

/-- C6 witness: the amended theorem applied at the 6-character string
`"aaaabb"` with cap 4. -/
theorem sanitize_data_never_raises_truncates_silently_witness :
    LoggingService.sanitize_data (some (PyData.pstr "aaaabb")) 4
      = some (("aaaabb" : String).take 4) :=
  ((sanitize_data_never_raises_truncates_silently (PyData.pstr "aaaabb") 4).2.2.1)
    "aaaabb" rfl (by decide)

/-- Helper: updating a fresh job appended at the end of the store
rewrites exactly that row. -/
theorem update_job_log_append_fresh (jid : String) (l : List JobLogRow)
    (row : JobLogRow) (now : Nat) (a : UpdateJobArgs)
    (hl : ∀ r ∈ l, (r.job_id == jid) = false)
    (hrow : (row.job_id == jid) = true) :
    (LoggingService.update_job_log (l ++ [row]) jid now a).2
      = l ++ [applyUpdateJob now a row] := by
  unfold LoggingService.update_job_log
  rw [find_job_append jid l row hl hrow]
  exact replaceFirstJob_append jid (applyUpdateJob now a) l row hl hrow

/-- Helper: the observed status of a fresh job appended at the end of the
store is that row's status. -/
theorem jobStatusIn_append_fresh (jid : String) (l : List JobLogRow)
    (row : JobLogRow)
    (hl : ∀ r ∈ l, (r.job_id == jid) = false)
    (hrow : (row.job_id == jid) = true) :
    jobStatusIn (l ++ [row]) jid = some row.status := by
  unfold jobStatusIn
  rw [find_job_append jid l row hl hrow]
  rfl

/-- Helper: the running-transition of `process_job` sets status
`"running"` on a row not yet started. -/
theorem applyUpdateJob_running_status (now : Nat) (r : JobLogRow)
    (h : r.started_at = none) :
    (applyUpdateJob now processJobRunningArgs r).status = "running" := by
  unfold applyUpdateJob processJobRunningArgs
  simp only [h]
  rfl

/-- Helper: the succeeded-transition of `process_job` sets status
`"succeeded"` on any row. -/
theorem applyUpdateJob_succeeded_status (now : Nat) (result : PyData)
    (r : JobLogRow) :
    (applyUpdateJob now (processJobSucceededArgs result) r).status
      = "succeeded" :=
  rfl

/-- Helper: the failed-transition of `process_job` sets status
`"failed"` on any row. -/
theorem applyUpdateJob_failed_status (now : Nat) (msg tb : String)
    (r : JobLogRow) :
    (applyUpdateJob now (processJobFailedArgs msg tb) r).status
      = "failed" := by
  unfold applyUpdateJob processJobFailedArgs
  by_cases hm : msg.isEmpty = true <;> by_cases ht : tb.isEmpty = true <;>
    simp only [truthyStr, hm, ht] <;> rfl

/-- C7: for every prior store not already containing the (freshly minted)
job id, every outcome of the pipeline (success or exception), and
arbitrary timestamps and payloads, the status trace of the job record
across the persistence calls made by `submit_job` and `process_job` is
exactly queued → running → succeeded/failed, and no step of the observed
trace moves from a terminal status back to a non-terminal one. -/
theorem job_lifecycle_status_monotonic (store0 : List JobLogRow)
    (requestPk : Option Nat) (nextPk : Nat) (job_id : String)
    (payload : Option PyData) (success : Bool) (result : PyData)
    (msg tb : String) (t1 t2 : Nat)
    (hfresh : ∀ r ∈ store0, (r.job_id == job_id) = false) :
    jobStatusTrace store0 requestPk nextPk job_id payload success result msg tb t1 t2
      = [some "queued", some "running",
         some (if success then "succeeded" else "failed")] ∧
    noTerminalEscape
      (jobStatusTrace store0 requestPk nextPk job_id payload success result msg tb t1 t2)
      = true := by
  have hmain : jobStatusTrace store0 requestPk nextPk job_id payload success result msg tb t1 t2
      = [some "queued", some "running",
         some (if success then "succeeded" else "failed")] := by
    unfold jobStatusTrace jobLifecycleStores LoggingService.create_job_log
    simp only [List.map_cons, List.map_nil]
    rw [update_job_log_append_fresh job_id store0 _ t1 processJobRunningArgs hfresh (by simp)]
    rw [update_job_log_append_fresh job_id store0 _ t2 _ hfresh
      (by simp [applyUpdateJob_job_id_eq])]
    rw [jobStatusIn_append_fresh job_id store0 _ hfresh (by simp)]
    rw [jobStatusIn_append_fresh job_id store0 _ hfresh
      (by simp [applyUpdateJob_job_id_eq])]
    rw [jobStatusIn_append_fresh job_id store0 _ hfresh
      (by simp [applyUpdateJob_job_id_eq])]
    rw [applyUpdateJob_running_status t1 _ rfl]
    cases success
    · rw [show (if false = true then processJobSucceededArgs result
            else processJobFailedArgs msg tb) = processJobFailedArgs msg tb from rfl,
        applyUpdateJob_failed_status]
      rfl
    · rw [show (if true = true then processJobSucceededArgs result
            else processJobFailedArgs msg tb) = processJobSucceededArgs result from rfl,
        applyUpdateJob_succeeded_status]
      rfl
  exact ⟨hmain, by rw [hmain]; cases success <;> decide⟩

/-- C7 witness: the lifecycle theorem applied to a fresh job in an empty
store, on the success path. -/
theorem job_lifecycle_status_monotonic_witness :
    jobStatusTrace [] none 1 "J1" none true (PyData.pstr "ok") "m" "tb" 5 9
      = [some "queued", some "running",
         some (if true then "succeeded" else "failed")] ∧
    noTerminalEscape
      (jobStatusTrace [] none 1 "J1" none true (PyData.pstr "ok") "m" "tb" 5 9)
      = true :=
  job_lifecycle_status_monotonic [] none 1 "J1" none true (PyData.pstr "ok")
    "m" "tb" 5 9 (fun r hr => absurd hr (List.not_mem_nil r))

/-- C8 counterexample: the installed middleware persists headers with NO
redaction — two requests identical except for the value of the
`authorization` header produce different stored header payloads. -/
theorem installed_middleware_stores_sensitive_headers_verbatim :
    let envA : LoggingMiddleware.DispatchEnv :=
      { requestUuid := "u4", headers := [("authorization", "Bearer secret-a")],
        bodyRead := Except.ok "", rowCreate := Except.ok 1,
        downstream := Except.ok 200, finalCommit := Except.ok (),
        errorCommit := Except.ok () }
    let envB : LoggingMiddleware.DispatchEnv :=
      { requestUuid := "u4", headers := [("authorization", "Bearer secret-b")],
        bodyRead := Except.ok "", rowCreate := Except.ok 1,
        downstream := Except.ok 200, finalCommit := Except.ok (),
        errorCommit := Except.ok () }
    (LoggingMiddleware.dispatch envA none).storedHeaders
      = some [("authorization", "Bearer secret-a")] ∧
    (LoggingMiddleware.dispatch envB none).storedHeaders
      = some [("authorization", "Bearer secret-b")] ∧
    ¬ (LoggingMiddleware.dispatch envA none).storedHeaders
      = (LoggingMiddleware.dispatch envB none).storedHeaders :=
  ⟨rfl, rfl, by decide⟩

/-- C8 (amended): header redaction exists only in the NOT-installed
`request_logging` middleware: its `_scrub_headers` maps every sensitive
header (authorization, cookie, set-cookie, case-insensitively) to
`"<redacted>"`, so two header lists that agree on names and on all
non-sensitive values — differing only in sensitive header values — scrub
to identical payloads. The installed `logging_middleware` stores headers
verbatim. -/
theorem scrub_headers_masks_sensitive_values (h1 h2 : List (String × String))
    (hagree : List.Forall₂ RequestLogging.HeaderAgree h1 h2) :
    RequestLogging.scrub_headers h1 = RequestLogging.scrub_headers h2 := by
  induction hagree with
  | nil => rfl
  | @cons a b l1 l2 hab htail ih =>
    obtain ⟨hk, hv⟩ := hab
    have hone : RequestLogging.scrubOne a = RequestLogging.scrubOne b := by
      unfold RequestLogging.scrubOne
      rw [hk]
      by_cases hc :
          RequestLogging.SENSITIVE_HEADERS.contains (RequestLogging.pyLower b.1) = true
      · have hc2 : RequestLogging.pyLower b.1 ∈ RequestLogging.SENSITIVE_HEADERS := by
          simpa using hc
        simp [hc2]
      · have hcb : RequestLogging.pyLower b.1 ∉ RequestLogging.SENSITIVE_HEADERS := by
          simpa using hc
        have hca : RequestLogging.SENSITIVE_HEADERS.contains (RequestLogging.pyLower a.1)
            = false := by
          rw [hk]
          simpa using hcb
        simp [hcb, hv hca]
    show RequestLogging.scrubOne a :: RequestLogging.scrub_headers l1
        = RequestLogging.scrubOne b :: RequestLogging.scrub_headers l2
    rw [hone, ih]

/-- C8 witness: two concrete header lists differing only in the
`Authorization` value scrub identically. -/
theorem scrub_headers_masks_sensitive_values_witness :
    RequestLogging.scrub_headers
        [("Authorization", "tok-a"), ("accept", "json")]
      = RequestLogging.scrub_headers
        [("Authorization", "tok-b"), ("accept", "json")] :=
  scrub_headers_masks_sensitive_values _ _
    (List.Forall₂.cons ⟨rfl, by decide⟩
      (List.Forall₂.cons ⟨rfl, fun _ => rfl⟩ List.Forall₂.nil))
